import Mathlib

/-!
# Verification of `server/emergency-python-server.py`

A shallow embedding of the emergency fallback HTTP server and proofs about
its request handling, bind loop and shutdown behaviour.

The embedding models:
* the JSON payloads built by `handle_api_request` (as a small `Json` type);
* the sequence of response-emission calls a handler performs
  (`send_response`, `send_header`, `end_headers`, `wfile.write`) as a list
  of `WriteEvent`s;
* `do_GET` / `do_OPTIONS` routing, including `urlparse` path extraction for
  origin-form request targets;
* the per-connection construction of `AlfalyzerHandler` (and with it the
  content-root resolution performed in `__init__`);
* the `start_server` bind loop over the eight fixed `(port, host)`
  strategies, with the fate of each candidate abstracted as a
  `BindOutcome`.
-/

namespace Emergency

/-- A JSON value as built by the handler.  Python float literals in the
stock payload are modelled as exact rationals (all are decimal fractions,
used only as inert data, never computed with). -/
inductive Json where
  | str (s : String)
  | num (q : Rat)
  | arr (xs : List Json)
  | obj (kvs : List (String × Json))

/-- The keys of a JSON object (in insertion order); `[]` on non-objects. -/
def Json.keys : Json → List String
  | .obj kvs => kvs.map (fun kv => kv.1)
  | _ => []

/-- Look up the value stored under key `k` of a JSON object, as Python
`dict` access would find it. -/
def Json.lookup : Json → String → Option Json
  | .obj kvs, k => (kvs.find? (fun kv => kv.1 == k)).map (fun kv => kv.2)
  | _, _ => none

/-- An HTTP response header (name, value). -/
structure Header where
  name : String
  value : String
deriving DecidableEq

/-- One response-emission call performed by the handler, in call order:
`statusLine c` is `send_response(c)`, `header h` is `send_header(...)`,
`endHeaders` is `end_headers()`, and `body b` is `wfile.write(json.dumps(b))`.
The embedding works at the level of these calls; it does not model the
byte-level buffering of `http.server` beneath them. -/
inductive WriteEvent where
  | statusLine (code : Nat)
  | header (h : Header)
  | endHeaders
  | body (b : Json)

/-- The status codes passed to `send_response`, in call order. -/
def statusWrites : List WriteEvent → List Nat
  | [] => []
  | WriteEvent.statusLine c :: rest => c :: statusWrites rest
  | _ :: rest => statusWrites rest

/-- The code of the first `send_response` call, if any. -/
def firstStatus : List WriteEvent → Option Nat
  | [] => none
  | WriteEvent.statusLine c :: _ => some c
  | _ :: rest => firstStatus rest

/-- All headers passed to `send_header`, in call order. -/
def headersSent : List WriteEvent → List Header
  | [] => []
  | WriteEvent.header h :: rest => h :: headersSent rest
  | _ :: rest => headersSent rest

/-- The JSON payload of the first `wfile.write` call, if any. -/
def bodySent : List WriteEvent → Option Json
  | [] => none
  | WriteEvent.body b :: _ => some b
  | _ :: rest => bodySent rest

/-- Per-request dynamic inputs read by `handle_api_request`: the formatted
`time.strftime(...)` timestamp, `sys.version` and `sys.platform`. -/
structure Env where
  timestamp : String
  pythonVersion : String
  osName : String

/-- The four CORS/content-type headers sent by `handle_api_request`
before branching, lines 151-154 of the source. -/
def corsHeaders : List Header :=
  [⟨"Content-Type", "application/json"⟩,
   ⟨"Access-Control-Allow-Origin", "*"⟩,
   ⟨"Access-Control-Allow-Methods", "GET, POST, OPTIONS"⟩,
   ⟨"Access-Control-Allow-Headers", "Content-Type, Authorization"⟩]

/-- The `/api/health` payload (source lines 158-164). -/
def healthJson (env : Env) : Json :=
  Json.obj
    [("status", Json.str "healthy"),
     ("server", Json.str "emergency-python-server"),
     ("timestamp", Json.str env.timestamp),
     ("python_version", Json.str env.pythonVersion),
     ("platform", Json.str env.osName)]

/-- The four fixed stock records of the `/api/stocks` payload
(source lines 168-173). -/
def stockData : List Json :=
  [Json.obj [("symbol", Json.str "AAPL"), ("price", Json.num ((15025 : Rat) / 100)),
             ("change", Json.str "+2.15")],
   Json.obj [("symbol", Json.str "GOOGL"), ("price", Json.num ((280050 : Rat) / 100)),
             ("change", Json.str "-5.75")],
   Json.obj [("symbol", Json.str "MSFT"), ("price", Json.num ((30075 : Rat) / 100)),
             ("change", Json.str "+1.25")],
   Json.obj [("symbol", Json.str "TSLA"), ("price", Json.num ((80090 : Rat) / 100)),
             ("change", Json.str "+12.45")]]

/-- The `/api/stocks` payload (source lines 166-176). -/
def stocksJson (env : Env) : Json :=
  Json.obj
    [("message", Json.str "Emergency Python server active"),
     ("data", Json.arr stockData),
     ("timestamp", Json.str env.timestamp),
     ("source", Json.str "python-emergency-server")]

/-- The unknown-endpoint payload (source lines 179-183). -/
def notFoundJson (path : String) : Json :=
  Json.obj
    [("error", Json.str "API endpoint not found"),
     ("path", Json.str path),
     ("server", Json.str "emergency-python-server")]

/-- `handle_api_request` (source lines 145-185) as the sequence of
response-emission calls it performs for a given already-parsed path:
`send_response(200)`, the four headers, `end_headers()`, then for an
unknown path an extra `send_response(404)`, and finally the single
`wfile.write` of the branch-selected payload. -/
def handle_api_request (env : Env) (path : String) : List WriteEvent :=
  [WriteEvent.statusLine 200] ++ corsHeaders.map WriteEvent.header ++
    [WriteEvent.endHeaders] ++
    (if path = "/api/health" then
      [WriteEvent.body (healthJson env)]
    else if path = "/api/stocks" then
      [WriteEvent.body (stocksJson env)]
    else
      [WriteEvent.statusLine 404, WriteEvent.body (notFoundJson path)])

/-- The path component `urlparse(target).path` of an origin-form request
target (one starting with `/`): the characters before the first `?`
(query) or `#` (fragment) delimiter. -/
def parsePath (target : String) : String :=
  String.mk (target.data.takeWhile (fun c => !(c == '?') && !(c == '#')))

/-- Python's `s.startswith(pre)`, decided on the underlying character
sequences. -/
def pyStartswith (s pre : String) : Bool :=
  pre.data.isPrefixOf s.data

/-- Outcome of a `GET`: either the API branch ran, emitting the given
write calls, or the request fell through to
`SimpleHTTPRequestHandler.do_GET` with the given (possibly rewritten)
`self.path`. -/
inductive GetResponse where
  | api (events : List WriteEvent)
  | static (selfPath : String)

/-- `do_GET` (source lines 132-143): parse the target, intercept paths
starting with `/api/`, rewrite `/` or empty path to `/index.html`, and
otherwise fall through to the stock file server with the original
`self.path`. -/
def do_GET (env : Env) (target : String) : GetResponse :=
  if pyStartswith (parsePath target) "/api/" then
    GetResponse.api (handle_api_request env (parsePath target))
  else if parsePath target = "/" ∨ parsePath target = "" then
    GetResponse.static "/index.html"
  else
    GetResponse.static target

/-- `do_OPTIONS` (source lines 187-193): status 200, the three CORS
headers, `end_headers()`; no body write.  The request target is ignored
by the source, hence the unused parameter. -/
def do_OPTIONS (_target : String) : List WriteEvent :=
  [WriteEvent.statusLine 200,
   WriteEvent.header ⟨"Access-Control-Allow-Origin", "*"⟩,
   WriteEvent.header ⟨"Access-Control-Allow-Methods", "GET, POST, OPTIONS"⟩,
   WriteEvent.header ⟨"Access-Control-Allow-Headers", "Content-Type, Authorization"⟩,
   WriteEvent.endHeaders]

/-! ## Content-root resolution (`AlfalyzerHandler.__init__`, lines 23-44)

`socketserver.TCPServer` instantiates its handler class once per accepted
connection (`BaseServer.finish_request` calls
`self.RequestHandlerClass(request, ...)`), so `AlfalyzerHandler.__init__` —
and with it the root resolution and the `os.chdir` side effect — runs on
every connection, not once at process startup. -/

/-- Filesystem facts that root resolution inspects: whether
`<base>/dist/public` and `<base>/client/public` exist. -/
structure FS where
  distExists : Bool
  clientPublicExists : Bool

/-- The directory chosen as the content root. -/
inductive Root where
  | dist
  | clientPublic
  | tempDir
deriving DecidableEq

/-- The fallback chain of `AlfalyzerHandler.__init__` (lines 30-42):
`dist/public` if it exists, else `client/public` if it exists, else a
created `temp_public` directory populated with `index.html`. -/
def resolveRoot (fs : FS) : Root :=
  if fs.distExists then Root.dist
  else if fs.clientPublicExists then Root.clientPublic
  else Root.tempDir

/-- An observable step of the serving process: a handler object was
constructed (so `__init__` resolved the content root and did `os.chdir`),
or a response was produced. -/
inductive ServerEvent where
  | resolvedRoot (r : Root)
  | responded (resp : GetResponse)

/-- Handling one accepted `GET` connection: the server constructs a fresh
`AlfalyzerHandler` (running `__init__`, hence root resolution), which then
dispatches the request through `do_GET`. -/
def handleConnection (env : Env) (fs : FS) (target : String) : List ServerEvent :=
  [ServerEvent.resolvedRoot (resolveRoot fs), ServerEvent.responded (do_GET env target)]

/-- The bound server handling a sequence of incoming `GET` connections,
one at a time (single-threaded `serve_forever`). -/
def serveConnections (env : Env) (fs : FS) : List String → List ServerEvent
  | [] => []
  | t :: rest => handleConnection env fs t ++ serveConnections env fs rest

/-- How many times the content root was resolved in a trace. -/
def countResolves : List ServerEvent → Nat
  | [] => 0
  | ServerEvent.resolvedRoot _ :: rest => countResolves rest + 1
  | _ :: rest => countResolves rest

/-! ## The bind loop (`start_server`, lines 210-261) -/

/-- The fate of one `(port, host)` candidate if the loop reaches it:
* `unavailable` — the disposable `try_port` test fails (`OSError`), the
  loop prints a notice and continues;
* `raceError` — `try_port` passes but the real
  `socketserver.TCPServer(...)` raises (`except OSError` / `except
  Exception`), the loop logs and continues;
* `serves` — the real bind succeeds and `serve_forever()` runs until the
  operator's `KeyboardInterrupt`, which the inner `try` catches before
  `break`ing out of the loop. -/
inductive BindOutcome where
  | unavailable
  | raceError
  | serves
deriving DecidableEq

/-- The eight fixed `(port, host)` strategies (source lines 216-225), in
order. -/
def strategies : List (Nat × String) :=
  [(3001, "127.0.0.1"), (3001, "localhost"), (3001, "0.0.0.0"),
   (8080, "127.0.0.1"), (8080, "localhost"), (8080, "0.0.0.0"),
   (3000, "127.0.0.1"), (5000, "127.0.0.1")]

/-- Observable result of running `start_server` to termination (the
serving case terminates via the operator's `KeyboardInterrupt`):
which candidates the loop body attempted, which one (if any) served,
whether the shutdown notice (line 250) and the total-failure diagnostic
(line 260) were printed, and the argument of the final `sys.exit`
(line 261), which `__main__` does not catch (`SystemExit` is not an
`Exception`), so it is the process exit status. -/
structure RunResult where
  attempted : List (Nat × String)
  servedOn : Option (Nat × String)
  stoppingPrinted : Bool
  allFailedPrinted : Bool
  exitCode : Nat
deriving DecidableEq

/-- The `for port, host in strategies` loop body, candidate by candidate.
When a candidate serves, `KeyboardInterrupt` is caught, the shutdown
notice printed and the loop `break`s — after which control still falls
through to lines 260-261, printing the failure diagnostic and calling
`sys.exit(1)`.  Exhaustion reaches the same two lines. -/
def bindLoop (world : Nat × String → BindOutcome) : List (Nat × String) → RunResult
  | [] => ⟨[], none, false, true, 1⟩
  | c :: rest =>
    match world c with
    | BindOutcome.serves => ⟨[c], some c, true, true, 1⟩
    | _ =>
      let r := bindLoop world rest
      ⟨c :: r.attempted, r.servedOn, r.stoppingPrinted, r.allFailedPrinted, r.exitCode⟩

/-- `start_server` (lines 210-261), with the fate of each candidate given
by `world`. -/
def start_server (world : Nat × String → BindOutcome) : RunResult :=
  bindLoop world strategies

/-! ## Concrete instances used by witnesses and counterexamples -/

/-- A concrete per-request environment. -/
def env₀ : Env :=
  ⟨"2025-01-01T00:00:00Z", "3.11.0", "darwin"⟩

/-- A concrete filesystem state: neither asset directory exists. -/
def fs₀ : FS := ⟨false, false⟩

/-- A concrete world in which only the second candidate,
`(3001, "localhost")`, serves; every other candidate is unavailable. -/
def world₀ : Nat × String → BindOutcome :=
  fun c => if c = (3001, "localhost") then BindOutcome.serves else BindOutcome.unavailable

/-! ## Helper lemmas -/

/-- If every candidate in the list is unavailable, the loop attempts all
of them in order, serves none, and falls through to the failure
diagnostic and `sys.exit(1)`. -/
theorem bindLoop_all_unavailable (world : Nat × String → BindOutcome) :
    ∀ l : List (Nat × String), (∀ c ∈ l, world c = BindOutcome.unavailable) →
      bindLoop world l = ⟨l, none, false, true, 1⟩
  | [], _ => rfl
  | c :: rest, h => by
    have hc : world c = BindOutcome.unavailable := h c (List.mem_cons_self c rest)
    have ih := bindLoop_all_unavailable world rest
      (fun x hx => h x (List.mem_cons_of_mem c hx))
    simp [bindLoop, hc, ih]

/-- Each accepted connection constructs a fresh handler, so the trace of
`n` connections contains exactly `n` root resolutions. -/
theorem countResolves_serveConnections (env : Env) (fs : FS) :
    ∀ targets : List String,
      countResolves (serveConnections env fs targets) = targets.length
  | [] => rfl
  | t :: rest => by
    simp [serveConnections, handleConnection, countResolves,
      countResolves_serveConnections env fs rest]

/-- If the candidates before `c` are all unavailable and `c` serves, the
loop serves on `c`, having attempted exactly the prefix up to and
including `c`, and still falls through to the failure epilogue. -/
theorem bindLoop_first_serves (world : Nat × String → BindOutcome) :
    ∀ (l₁ : List (Nat × String)) (c : Nat × String) (l₂ : List (Nat × String)),
      (∀ x ∈ l₁, world x = BindOutcome.unavailable) →
      world c = BindOutcome.serves →
      bindLoop world (l₁ ++ c :: l₂) = ⟨l₁ ++ [c], some c, true, true, 1⟩
  | [], c, l₂, _, hc => by simp [bindLoop, hc]
  | x :: l₁, c, l₂, h, hc => by
    have hx : world x = BindOutcome.unavailable := h x (List.mem_cons_self x l₁)
    have ih := bindLoop_first_serves world l₁ c l₂
      (fun y hy => h y (List.mem_cons_of_mem x hy)) hc
    simp [bindLoop, hx, ih]

/-- `takeWhile` passes over a block whose elements all satisfy the
predicate. -/
theorem takeWhile_append_all {α : Type} (pr : α → Bool) :
    ∀ (l₁ l₂ : List α), (∀ a ∈ l₁, pr a = true) →
      (l₁ ++ l₂).takeWhile pr = l₁ ++ l₂.takeWhile pr
  | [], _, _ => rfl
  | a :: l₁, l₂, h => by
    have ha : pr a = true := h a (List.mem_cons_self a l₁)
    simp [List.takeWhile_cons, ha,
      takeWhile_append_all pr l₁ l₂ (fun x hx => h x (List.mem_cons_of_mem a hx))]

/-- `takeWhile` keeps a list all of whose elements satisfy the
predicate. -/
theorem takeWhile_all {α : Type} (pr : α → Bool) :
    ∀ l : List α, (∀ a ∈ l, pr a = true) → l.takeWhile pr = l
  | [], _ => rfl
  | a :: l, h => by
    have ha : pr a = true := h a (List.mem_cons_self a l)
    simp [List.takeWhile_cons, ha,
      takeWhile_all pr l (fun x hx => h x (List.mem_cons_of_mem a hx))]

/-- Every character of a delimiter-free path passes the path parser's
predicate. -/
theorem clean_chars (p : String) (h1 : '?' ∉ p.data) (h2 : '#' ∉ p.data) :
    ∀ c ∈ p.data, (!(c == '?') && !(c == '#')) = true := by
  intro c hc
  have c1 : c ≠ '?' := fun e => h1 (e ▸ hc)
  have c2 : c ≠ '#' := fun e => h2 (e ▸ hc)
  simp [c1, c2]

/-- A delimiter-free target parses to itself. -/
theorem parsePath_eq_self (p : String)
    (h1 : '?' ∉ p.data) (h2 : '#' ∉ p.data) : parsePath p = p := by
  rw [parsePath, takeWhile_all _ p.data (clean_chars p h1 h2)]

/-- Appending a query string to a delimiter-free path parses back to the
path alone. -/
theorem parsePath_append_query (p q : String)
    (h1 : '?' ∉ p.data) (h2 : '#' ∉ p.data) :
    parsePath (p ++ "?" ++ q) = p := by
  have hdata : (p ++ "?" ++ q).data = p.data ++ '?' :: q.data := by
    simp [String.data_append]
  rw [parsePath, hdata,
    takeWhile_append_all _ p.data ('?' :: q.data) (clean_chars p h1 h2)]
  simp [List.takeWhile_cons]

/-! ## Claim theorems -/

/-- C6: every `GET /api/health` returns status 200 with header
`Content-Type: application/json` and a JSON body whose key set includes
`status`, `server`, `timestamp`, `python_version` and `platform`, with
`status = "healthy"` and `server = "emergency-python-server"`. -/
theorem api_health_response_ok (env : Env) :
    ∃ evs body,
      do_GET env "/api/health" = GetResponse.api evs ∧
      firstStatus evs = some 200 ∧
      (⟨"Content-Type", "application/json"⟩ : Header) ∈ headersSent evs ∧
      bodySent evs = some body ∧
      "status" ∈ body.keys ∧ "server" ∈ body.keys ∧ "timestamp" ∈ body.keys ∧
      "python_version" ∈ body.keys ∧ "platform" ∈ body.keys ∧
      body.lookup "status" = some (Json.str "healthy") ∧
      body.lookup "server" = some (Json.str "emergency-python-server") := by
  refine ⟨handle_api_request env "/api/health", healthJson env,
    rfl, rfl, ?_, rfl, ?_, ?_, ?_, ?_, ?_, rfl, rfl⟩ <;>
      simp [handle_api_request, corsHeaders, headersSent, healthJson, Json.keys]

/-- C7: every `GET /api/stocks` returns status 200 and a body whose
`data` field is the array of exactly four fixed stock records, each
carrying exactly the keys `symbol`, `price`, `change`; the records are
constants, identical across any two requests. -/
theorem api_stocks_response_ok (env env2 : Env) :
    ∃ evs body,
      do_GET env "/api/stocks" = GetResponse.api evs ∧
      firstStatus evs = some 200 ∧
      bodySent evs = some body ∧
      body.lookup "data" = some (Json.arr stockData) ∧
      stockData.length = 4 ∧
      stockData.map Json.keys = List.replicate 4 ["symbol", "price", "change"] ∧
      (stocksJson env).lookup "data" = (stocksJson env2).lookup "data" :=
  ⟨handle_api_request env "/api/stocks", stocksJson env,
    rfl, rfl, rfl, rfl, rfl, rfl, rfl⟩

/-- C8: an `OPTIONS` request on any path gets status 200, no body write,
and the three CORS headers. -/
theorem options_cors_ok (target : String) :
    firstStatus (do_OPTIONS target) = some 200 ∧
    bodySent (do_OPTIONS target) = none ∧
    (⟨"Access-Control-Allow-Origin", "*"⟩ : Header) ∈ headersSent (do_OPTIONS target) ∧
    (⟨"Access-Control-Allow-Methods", "GET, POST, OPTIONS"⟩ : Header)
      ∈ headersSent (do_OPTIONS target) ∧
    (⟨"Access-Control-Allow-Headers", "Content-Type, Authorization"⟩ : Header)
      ∈ headersSent (do_OPTIONS target) := by
  refine ⟨rfl, rfl, ?_, ?_, ?_⟩ <;> simp [do_OPTIONS, headersSent]

/-- C10: `GET /api` (no trailing slash) is not intercepted by the API
handler: the prefix check requires `/api/` with the slash, so the
request falls through to static file serving with `self.path`
unchanged. -/
theorem api_bare_path_falls_through (env : Env) :
    do_GET env "/api" = GetResponse.static "/api" ∧
    pyStartswith (parsePath "/api") "/api/" = false :=
  ⟨rfl, rfl⟩

/-- C1 (code bug): with every candidate able to serve, the first
candidate binds and serves; the operator's interrupt is caught and the
shutdown notice printed, but the loop's `break` falls through to lines
260-261, so the process still prints the total-failure diagnostic and
exits with status 1 — not 0 as specified for a clean interrupt of a
running server. -/
theorem interrupt_exit_code_is_one :
    (start_server (fun _ => BindOutcome.serves)).servedOn = some (3001, "127.0.0.1") ∧
    (start_server (fun _ => BindOutcome.serves)).stoppingPrinted = true ∧
    (start_server (fun _ => BindOutcome.serves)).allFailedPrinted = true ∧
    (start_server (fun _ => BindOutcome.serves)).exitCode = 1 :=
  ⟨rfl, rfl, rfl, rfl⟩

/-- C5: if all eight bind candidates are unavailable, no candidate
serves, the failure diagnostic is printed, and the process exits with
status 1. -/
theorem bind_exhaustion_exits_one (world : Nat × String → BindOutcome)
    (h : ∀ c ∈ strategies, world c = BindOutcome.unavailable) :
    (start_server world).servedOn = none ∧
    (start_server world).allFailedPrinted = true ∧
    (start_server world).exitCode = 1 := by
  rw [start_server, bindLoop_all_unavailable world strategies h]
  exact ⟨rfl, rfl, rfl⟩

/-- Witness: the exhaustion claim at the world where no candidate is
available. -/
theorem bind_exhaustion_exits_one_witness :
    (start_server (fun _ => BindOutcome.unavailable)).servedOn = none ∧
    (start_server (fun _ => BindOutcome.unavailable)).allFailedPrinted = true ∧
    (start_server (fun _ => BindOutcome.unavailable)).exitCode = 1 :=
  bind_exhaustion_exits_one (fun _ => BindOutcome.unavailable) (fun _ _ => rfl)

/-- C2 counterexample: with two accepted connections the content root is
resolved twice, so resolution is not "exactly once per process
lifetime, never recurring on later connections". -/
theorem root_resolution_recurs_counterexample :
    ¬ countResolves (serveConnections env₀ fs₀ ["/x", "/y"]) ≤ 1 := by
  decide

/-- C2 amended: the content root is resolved each time a connection's
handler is constructed — once per accepted connection rather than once
per process — and each resolution follows the fixed priority chain
`dist/public`, then `client/public`, then the created temp directory. -/
theorem root_resolution_per_connection (env : Env) (fs : FS) (targets : List String) :
    countResolves (serveConnections env fs targets) = targets.length ∧
    (fs.distExists = true → resolveRoot fs = Root.dist) ∧
    (fs.distExists = false → fs.clientPublicExists = true →
      resolveRoot fs = Root.clientPublic) ∧
    (fs.distExists = false → fs.clientPublicExists = false →
      resolveRoot fs = Root.tempDir) :=
  ⟨countResolves_serveConnections env fs targets,
   fun h1 => by simp [resolveRoot, h1],
   fun h1 h2 => by simp [resolveRoot, h1, h2],
   fun h1 h2 => by simp [resolveRoot, h1, h2]⟩

/-- Witness: two connections against an empty filesystem give two
resolutions, each choosing the temp directory. -/
theorem root_resolution_per_connection_witness :
    countResolves (serveConnections env₀ fs₀ ["/x", "/y"]) = 2 ∧
    resolveRoot fs₀ = Root.tempDir := by
  have h := root_resolution_per_connection env₀ fs₀ ["/x", "/y"]
  exact ⟨h.1, h.2.2.2 rfl rfl⟩

/-- C4: the bind loop tries exactly the eight fixed candidates in the
stated order; if the first `n` candidates are unavailable and the
`(n+1)`-th serves, the server serves exactly on the `(n+1)`-th
candidate, having attempted exactly the first `n+1` candidates and no
later one. -/
theorem bind_first_available_wins (world : Nat × String → BindOutcome)
    (n : Nat) (hn : n < strategies.length)
    (hprev : ∀ c ∈ strategies.take n, world c = BindOutcome.unavailable)
    (hcur : world (strategies.get ⟨n, hn⟩) = BindOutcome.serves) :
    strategies =
      [(3001, "127.0.0.1"), (3001, "localhost"), (3001, "0.0.0.0"),
       (8080, "127.0.0.1"), (8080, "localhost"), (8080, "0.0.0.0"),
       (3000, "127.0.0.1"), (5000, "127.0.0.1")] ∧
    (start_server world).servedOn = some (strategies.get ⟨n, hn⟩) ∧
    (start_server world).attempted = strategies.take (n + 1) := by
  have hdecomp : strategies =
      strategies.take n ++ strategies.get ⟨n, hn⟩ :: strategies.drop (n + 1) := by
    conv_lhs => rw [← List.take_append_drop n strategies]
    rw [List.drop_eq_getElem_cons hn]
    simp
  have hrun : bindLoop world strategies =
      ⟨strategies.take n ++ [strategies.get ⟨n, hn⟩],
       some (strategies.get ⟨n, hn⟩), true, true, 1⟩ := by
    conv_lhs => rw [hdecomp]
    exact bindLoop_first_serves world _ _ _ hprev hcur
  have htake : strategies.take (n + 1) =
      strategies.take n ++ [strategies.get ⟨n, hn⟩] := by
    rw [List.take_succ]
    simp [List.getElem?_eq_getElem hn]
  refine ⟨rfl, ?_, ?_⟩
  · rw [start_server, hrun]
  · rw [start_server, hrun, htake]

/-- Witness: in `world₀` the first candidate is unavailable and the
second serves, so the loop serves on `(3001, "localhost")` having
attempted exactly the first two candidates. -/
theorem bind_first_available_wins_witness :
    (start_server world₀).servedOn = some (3001, "localhost") ∧
    (start_server world₀).attempted = [(3001, "127.0.0.1"), (3001, "localhost")] := by
  have h := bind_first_available_wins world₀ 1 (by decide) (by decide) (by decide)
  exact ⟨h.2.1.trans rfl, h.2.2.trans rfl⟩

/-- C3: for any `GET` whose parsed path starts with `/api/` but is
neither `/api/health` nor `/api/stocks`, the handler first performs
`send_response(200)` with the four JSON/CORS headers and
`end_headers()`, then performs a second `send_response(404)` after
those headers, and writes a JSON body holding exactly the keys `error`
(value `"API endpoint not found"`), `path` (the requested path) and
`server` (value `"emergency-python-server"`). -/
theorem unknown_api_double_status (env : Env) (target : String)
    (h0 : pyStartswith (parsePath target) "/api/" = true)
    (h1 : parsePath target ≠ "/api/health")
    (h2 : parsePath target ≠ "/api/stocks") :
    do_GET env target = GetResponse.api
      ([WriteEvent.statusLine 200] ++ corsHeaders.map WriteEvent.header ++
        [WriteEvent.endHeaders] ++
        [WriteEvent.statusLine 404,
         WriteEvent.body (notFoundJson (parsePath target))]) ∧
    statusWrites (handle_api_request env (parsePath target)) = [200, 404] ∧
    (notFoundJson (parsePath target)).keys = ["error", "path", "server"] ∧
    (notFoundJson (parsePath target)).lookup "error" =
      some (Json.str "API endpoint not found") ∧
    (notFoundJson (parsePath target)).lookup "path" =
      some (Json.str (parsePath target)) ∧
    (notFoundJson (parsePath target)).lookup "server" =
      some (Json.str "emergency-python-server") := by
  have hreq : handle_api_request env (parsePath target) =
      [WriteEvent.statusLine 200] ++ corsHeaders.map WriteEvent.header ++
        [WriteEvent.endHeaders] ++
        [WriteEvent.statusLine 404,
         WriteEvent.body (notFoundJson (parsePath target))] := by
    rw [handle_api_request, if_neg h1, if_neg h2]
  refine ⟨?_, ?_, rfl, rfl, rfl, rfl⟩
  · unfold do_GET
    rw [if_pos h0, hreq]
  · rw [hreq]
    rfl

/-- Witness: the unknown endpoint `/api/unknown` gets the double status
write and the three-key body. -/
theorem unknown_api_double_status_witness :
    do_GET env₀ "/api/unknown" = GetResponse.api
      ([WriteEvent.statusLine 200] ++ corsHeaders.map WriteEvent.header ++
        [WriteEvent.endHeaders] ++
        [WriteEvent.statusLine 404,
         WriteEvent.body (notFoundJson "/api/unknown")]) ∧
    statusWrites (handle_api_request env₀ "/api/unknown") = [200, 404] := by
  have h := unknown_api_double_status env₀ "/api/unknown"
    (by decide) (by decide) (by decide)
  exact ⟨h.1, h.2.1⟩

/-- C9: routing and the API handler depend only on the path component of
the request target: for a delimiter-free API path `p` and any query
string `q`, the response to `p?q` equals the response to `p` (in
particular `/api/health?q` behaves like `/api/health` and
`/api/stocks?q` like `/api/stocks`), and for unknown API paths the
echoed `path` field is the query-free path. -/
theorem routing_ignores_query (env : Env) (p q : String)
    (h1 : '?' ∉ p.data) (h2 : '#' ∉ p.data)
    (h3 : pyStartswith p "/api/" = true) :
    do_GET env (p ++ "?" ++ q) = do_GET env p ∧
    (p ≠ "/api/health" → p ≠ "/api/stocks" →
      bodySent (handle_api_request env (parsePath (p ++ "?" ++ q))) =
        some (notFoundJson p)) := by
  have hp : parsePath (p ++ "?" ++ q) = p := parsePath_append_query p q h1 h2
  have hp2 : parsePath p = p := parsePath_eq_self p h1 h2
  constructor
  · unfold do_GET
    rw [hp, hp2, if_pos h3, if_pos h3]
  · intro hh hs
    rw [hp]
    unfold handle_api_request
    rw [if_neg hh, if_neg hs]
    rfl

/-- Witness: `/api/unknown?x=1` behaves exactly like `/api/unknown`, and
the echoed `path` field omits the query string. -/
theorem routing_ignores_query_witness :
    do_GET env₀ ("/api/unknown" ++ "?" ++ "x=1") = do_GET env₀ "/api/unknown" ∧
    bodySent (handle_api_request env₀ (parsePath ("/api/unknown" ++ "?" ++ "x=1"))) =
      some (notFoundJson "/api/unknown") := by
  have h := routing_ignores_query env₀ "/api/unknown" "x=1"
    (by decide) (by decide) (by decide)
  exact ⟨h.1, h.2 (by decide) (by decide)⟩

end Emergency
